import Mathlib

/-!
Shallow embedding of the `reports` repository (files `cars_monthly.py` and
`s3_api.py`): a monthly batch job that selects first-of-month CSV exports
from object storage, cleans them, writes them to per-month spreadsheet tabs
and rebuilds an aggregate `all_data` tab.

Python cells read from a CSV are modelled as `Option String` (`none` = NaN),
Python exceptions as an error type threaded through `Except`, and the
spreadsheet as a list of worksheets carrying their title, grid row count and
cell values.
-/

namespace Reports

/-- The Python exception classes that the modelled code can raise. -/
inductive PyErr where
  | indexError
  | valueError
  | attributeError
  | apiError
  | nameError
  | notFound
deriving DecidableEq, Repr

/-- A pandas cell: `none` models NaN (missing), `some s` a string value. -/
abbrev Cell := Option String

/-- Python `str(x)` on a cell: `str(nan)` is the string `"nan"`. -/
def pyStr : Cell → String
  | none => "nan"
  | some s => s

/-- Split a character list at every occurrence of `sep`, keeping empty
groups, as Python `str.split` does for a one-character separator. -/
def splitChars (sep : Char) : List Char → List (List Char)
  | [] => [[]]
  | c :: cs =>
    match splitChars sep cs with
    | [] => if c = sep then [[], []] else [[c]]
    | g :: gs => if c = sep then [] :: g :: gs else (c :: g) :: gs

/-- Python `s.split(sep)` for a one-character separator. -/
def pySplit (sep : Char) (s : String) : List String :=
  (splitChars sep s.data).map String.mk

/-- Python slice `s[a:b]` on a string (never raises, clamps at the ends). -/
def pySlice (s : String) (a b : Nat) : String :=
  String.mk ((s.data.drop a).take (b - a))

/-- Decimal value of a digit character. -/
def charVal (c : Char) : Nat := c.toNat - 48

/-- Decimal value of a list of digit characters. -/
def natOfDigits (cs : List Char) : Nat :=
  cs.foldl (fun a c => a * 10 + charVal c) 0

/-- Value of a nonempty all-digit character list, `none` otherwise. -/
def digitsVal (cs : List Char) : Option Nat :=
  if cs ≠ [] ∧ cs.all Char.isDigit then some (natOfDigits cs) else none

/-- Python `int(s)`, restricted to the forms exercised here: an optional
sign followed by decimal digits; anything else raises `ValueError`,
modelled as `none`. -/
def pyInt (s : String) : Option Int :=
  match s.data with
  | [] => none
  | c :: rest =>
    if c = '-' then (digitsVal rest).map (fun n => -(n : Int))
    else if c = '+' then (digitsVal rest).map (fun n => (n : Int))
    else (digitsVal (c :: rest)).map (fun n => (n : Int))

/-- Python `sub in s` substring test on character lists. -/
def containsSub (pat : List Char) : List Char → Bool
  | [] => pat.isPrefixOf ([] : List Char)
  | c :: cs => pat.isPrefixOf (c :: cs) || containsSub pat cs

/-- Python `sub in s` substring test on strings. -/
def pyContains (pat s : String) : Bool :=
  containsSub pat.data s.data

/-- Gregorian leap-year test, as used by Python `datetime`. -/
def isLeap (y : Nat) : Bool :=
  y % 4 == 0 && (y % 100 != 0 || y % 400 == 0)

/-- Number of days of month `m` in year `y`. -/
def daysInMonth (y m : Nat) : Nat :=
  if m = 2 then (if isLeap y then 29 else 28)
  else if m = 4 ∨ m = 6 ∨ m = 9 ∨ m = 11 then 30
  else 31

/-- Validity of a calendar date for Python `datetime` (year 1..9999). -/
def validDate (y m d : Nat) : Bool :=
  decide (1 ≤ y ∧ y ≤ 9999 ∧ 1 ≤ m ∧ m ≤ 12 ∧ 1 ≤ d ∧ d ≤ daysInMonth y m)

/-- Zero-pad the decimal representation of `n` to `width` characters. -/
def padNum (n width : Nat) : String :=
  String.mk (List.replicate (width - (toString n).length) '0') ++ toString n

/-- Python `strftime("%Y-%m-%d")` on a date. -/
def fmtDate (y m d : Nat) : String :=
  padNum y 4 ++ "-" ++ padNum m 2 ++ "-" ++ padNum d 2

/-- Python `datetime.strptime(s, "%Y%m%d")`: on an 8-character string the
only way the format can consume the whole input is four year digits, two
month digits and two day digits, and `datetime` then validates the date.
`none` models the raised `ValueError`. -/
def strptime8 (s : String) : Option (Nat × Nat × Nat) :=
  let cs := s.data
  if cs.length = 8 ∧ cs.all Char.isDigit then
    let y := natOfDigits (cs.take 4)
    let mo := natOfDigits ((cs.drop 4).take 2)
    let d := natOfDigits ((cs.drop 6).take 2)
    if validDate y mo d then some (y, mo, d) else none
  else none

/-- Python `datetime.strptime(s, "%Y%m%d%H%M%S")`: fourteen digits split
4-2-2-2-2-2, with date and time validity. Only the date part is kept since
the code formats the result with `"%Y-%m-%d"`. -/
def strptime14 (s : String) : Option (Nat × Nat × Nat) :=
  let cs := s.data
  if cs.length = 14 ∧ cs.all Char.isDigit then
    let y := natOfDigits (cs.take 4)
    let mo := natOfDigits ((cs.drop 4).take 2)
    let d := natOfDigits ((cs.drop 6).take 2)
    let hh := natOfDigits ((cs.drop 8).take 2)
    let mi := natOfDigits ((cs.drop 10).take 2)
    let ss := natOfDigits ((cs.drop 12).take 2)
    if validDate y mo d ∧ hh ≤ 23 ∧ mi ≤ 59 ∧ ss ≤ 61 then some (y, mo, d)
    else none
  else none

/-- `is_file_name_on_1st` from `cars_monthly.py`:
`int(file_name.split("_")[1].split(".")[0][6:8]) == 1`.
Indexing `[1]` raises `IndexError` when the name has no underscore, and
`int` raises `ValueError` when the slice is not a number. -/
def is_file_name_on_1st (file_name : String) : Except PyErr Bool :=
  match (pySplit '_' file_name)[1]? with
  | none => .error .indexError
  | some seg =>
    match pyInt (pySlice ((pySplit '.' seg).headD "") 6 8) with
    | none => .error .valueError
    | some n => .ok (n == 1)

/-- `get_sheet_name` from `cars_monthly.py`:
`datetime.strptime(file_name.split("_")[1][:8], "%Y%m%d").strftime("%Y-%m-%d")`. -/
def get_sheet_name (file_name : String) : Except PyErr String :=
  match (pySplit '_' file_name)[1]? with
  | none => .error .indexError
  | some seg =>
    match strptime8 (String.mk (seg.data.take 8)) with
    | none => .error .valueError
    | some (y, m, d) => .ok (fmtDate y m d)

/-- The selection condition of the download loop in `main`:
`"cars" in s3_object and is_file_name_on_1st(s3_object) and
s3_object not in os.listdir(os.path.join(BASE_DIR, "data"))`,
with Python short-circuit evaluation. -/
def selectsFile (dataListing : List String) (name : String) :
    Except PyErr Bool :=
  if pyContains "cars" name then
    match is_file_name_on_1st name with
    | .error e => .error e
    | .ok b => .ok (b && !(dataListing.contains name))
  else .ok false

/-- One row of a downloaded export file, with the columns `clean_dataframe`
touches. `none` is a missing value (NaN after `pd.read_csv`). -/
structure RawRecord where
  vin : Cell
  number : Cell
  status : Cell
  region : Cell
  department : Cell
  model : Cell
  yearCar : Cell
  timestamp : Cell
deriving DecidableEq, Repr

/-- A row of the cleaned table, in the fixed canonical column order
`date, model, year, number, vin, department, region, status`. -/
structure CanonRecord where
  date : String
  model : String
  year : String
  number : String
  vin : String
  department : String
  region : String
  status : String
deriving DecidableEq, Repr

/-- The `dropna(subset=["VIN", "Number", "Status", "Region", "Department"])`
condition: all five required cells are present. -/
def requiredPresent (r : RawRecord) : Bool :=
  r.vin.isSome && r.number.isSome && r.status.isSome &&
  r.region.isSome && r.department.isSome

/-- pandas `Series.isin` on one cell: NaN is a member of nothing. -/
def cellIsin (c : Cell) (vals : List String) : Bool :=
  match c with
  | none => false
  | some s => vals.contains s

/-- The denylist filter of `clean_dataframe`: Status not in
АРХИВ/ЛИЧНАЯ, Department not ЛИЧНАЯ, Model not БЭТМОБИЛЬ, YearCar not the
zero-date sentinel. -/
def notExcluded (r : RawRecord) : Bool :=
  !(cellIsin r.status ["АРХИВ", "ЛИЧНАЯ"]) &&
  !(cellIsin r.department ["ЛИЧНАЯ"]) &&
  !(cellIsin r.model ["БЭТМОБИЛЬ"]) &&
  !(cellIsin r.yearCar ["0001-01-01T00:00:00"])

/-- A row survives both the dropna step and the denylist filter. -/
def keepRow (r : RawRecord) : Bool :=
  requiredPresent r && notExcluded r

/-- Per-row transform of `clean_dataframe` after filtering: YearCar becomes
`str(x)[:4]`, the timestamp is reparsed as `%Y%m%d%H%M%S` and formatted as
`%Y-%m-%d` (raising `ValueError` on failure), the row is projected to the
8 canonical columns and remaining NaN cells are filled with `''`. -/
def fromRaw (r : RawRecord) : Except PyErr CanonRecord :=
  match strptime14 (pyStr r.timestamp) with
  | none => .error .valueError
  | some (y, m, d) => .ok
      { date := fmtDate y m d
        model := r.model.getD ""
        year := String.mk ((pyStr r.yearCar).data.take 4)
        number := r.number.getD ""
        vin := r.vin.getD ""
        department := r.department.getD ""
        region := r.region.getD ""
        status := r.status.getD "" }

/-- Filtering and per-row transformation of `clean_dataframe`, in input
order; the first row whose timestamp fails to parse aborts the cleaning
with the pandas `apply` exception. -/
def cleanRows : List RawRecord → Except PyErr (List CanonRecord)
  | [] => .ok []
  | r :: rs =>
    if keepRow r then
      match fromRaw r with
      | .error e => .error e
      | .ok c =>
        match cleanRows rs with
        | .error e => .error e
        | .ok cs => .ok (c :: cs)
    else cleanRows rs

/-- The sort key of `clean_dataframe`'s final `sort_values`:
`(model, year, department, region)`, as a list for the lexicographic
order. -/
def keyList (c : CanonRecord) : List String :=
  [c.model, c.year, c.department, c.region]

/-- Ascending comparison on the sort key (lexicographic, the pandas
string order). -/
def keyLE (a b : CanonRecord) : Prop :=
  keyList a ≤ keyList b

instance : DecidableRel keyLE := fun a b =>
  inferInstanceAs (Decidable (keyList a ≤ keyList b))

instance : IsTotal CanonRecord keyLE :=
  ⟨fun a b => le_total (keyList a) (keyList b)⟩

instance : IsTrans CanonRecord keyLE :=
  ⟨fun _ _ _ h h' => le_trans h h'⟩

/-- The final `sort_values(by=["model", "year", "department", "region"],
ascending=True, na_position="first")`: with several sort keys pandas uses
a stable lexicographic sort; by this point every missing value has been
filled with the empty string, which is minimal in the string order. -/
def sortCanon (l : List CanonRecord) : List CanonRecord :=
  List.insertionSort keyLE l

/-- `clean_dataframe` on the rows of one downloaded file. -/
def cleanFile (rows : List RawRecord) : Except PyErr (List CanonRecord) :=
  (cleanRows rows).map sortCanon

/-- A worksheet of the destination spreadsheet: its title, grid row count
and the cell values returned by `get_all_values` (a freshly created sheet
has no values). -/
structure Worksheet where
  title : String
  rowCount : Nat
  values : List (List String)
deriving DecidableEq, Repr

/-- The live spreadsheet: its list of worksheets, in tab order. -/
abbrev Sheets := List Worksheet

/-- `get_all_values` of the (first) worksheet with the given title, `[]`
when no such worksheet exists. -/
def wsValues (sheets : Sheets) (t : String) : List (List String) :=
  match sheets.find? (fun w => w.title == t) with
  | some w => w.values
  | none => []

/-- `worksheet.update(data)`: overwrite the range starting at A1 with
`data`; rows of the old value range beyond `data` stay in place, and the
grid grows as needed to hold the written range. -/
def updateVals (w : Worksheet) (data : List (List String)) : Worksheet :=
  { w with
    values := data ++ w.values.drop data.length
    rowCount := max w.rowCount data.length }

/-- Replace the first worksheet with the given title. -/
def setFirstWs (t : String) (w' : Worksheet) : Sheets → Sheets
  | [] => []
  | w :: ws => if w.title == t then w' :: ws else w :: setFirstWs t w' ws

/-- The canonical header row written before the data rows
(`dataframe.columns.values.tolist()` after the rename). -/
def header8 : List String :=
  ["date", "model", "year", "number", "vin", "department", "region", "status"]

/-- One cleaned row as the list of cell strings written to the sheet. -/
def canonRow (c : CanonRecord) : List String :=
  [c.date, c.model, c.year, c.number, c.vin, c.department, c.region, c.status]

/-- One iteration of the per-file loop of `main`: clean the file, derive
the tab name, then create the tab (membership tested against the
`worksheets` list snapshotted at the start of the run) or resize the
existing one additively, and overwrite header plus data. Freezing the
header row is a formatting call with no effect on values. -/
def processFile (snapshot : List String) (sheets : Sheets)
    (f : String × List RawRecord) : Except PyErr Sheets :=
  match cleanFile f.2 with
  | .error e => .error e
  | .ok df =>
    match get_sheet_name f.1 with
    | .error e => .error e
    | .ok title =>
      let data := header8 :: df.map canonRow
      if !(snapshot.contains title) then
        if (sheets.map Worksheet.title).contains title then .error .apiError
        else .ok (sheets ++ [updateVals ⟨title, df.length, []⟩ data])
      else
        match sheets.find? (fun w => w.title == title) with
        | none => .error .notFound
        | some w =>
          .ok (setFirstWs title
            (updateVals { w with rowCount := w.rowCount + df.length } data)
            sheets)

/-- The per-file loop of `main`. There is no try/except around the body:
the first exception stops the loop. The sheet writes already performed are
remote side effects that persist, so the state reached so far is returned
together with the error. The `Option Nat` tracks the Python local
`dataframe_cols`, unbound until the first iteration completes. -/
def processFilesAux (snapshot : List String) (sheets : Sheets)
    (dfCols : Option Nat) :
    List (String × List RawRecord) → Sheets × Option Nat × Option PyErr
  | [] => (sheets, dfCols, none)
  | f :: fs =>
    match processFile snapshot sheets f with
    | .error e => (sheets, dfCols, some e)
    | .ok sheets2 => processFilesAux snapshot sheets2 (some 8) fs

/-- A tab name excluded from aggregation. -/
def excludedTab (t : String) : Bool :=
  t == "all_data" || t == "сводная таблица"

/-- The consolidation loop of `main`: for each worksheet of the snapshot
list whose title is not excluded, append `get_all_values()[1:]` (the live
values of that sheet minus its first row). -/
def consolidate (sheets : Sheets) : List String → List (List String)
  | [] => []
  | t :: ts =>
    (if excludedTab t then [] else (wsValues sheets t).drop 1)
      ++ consolidate sheets ts

/-- The create-or-fetch of the `all_data` sheet in `main`: membership is
tested against the snapshot list; creating reads the loop variable
`dataframe_cols` (a `NameError` when no file was processed), a duplicate
live title is an `APIError`, and a created sheet is appended to the
snapshot list. -/
def aggCreate (snapshot : List String) (sheets : Sheets)
    (dfCols : Option Nat) : Except PyErr (Sheets × List String) :=
  if !(snapshot.contains "all_data") then
    match dfCols with
    | none => .error .nameError
    | some _ =>
      if (sheets.map Worksheet.title).contains "all_data" then
        .error .apiError
      else .ok (sheets ++ [⟨"all_data", 1, []⟩], snapshot ++ ["all_data"])
  else
    if (sheets.map Worksheet.title).contains "all_data" then
      .ok (sheets, snapshot)
    else .error .notFound

/-- The aggregate step of `main`: consolidate the snapshot tabs, create or
fetch the `all_data` sheet via `aggCreate`, read the header row as
`worksheets[1].get_all_values()[0]`, then resize, clear and overwrite
`all_data`. -/
def aggregateStep (snapshot : List String) (sheets : Sheets)
    (dfCols : Option Nat) : Except PyErr Sheets :=
  let consolidated := consolidate sheets snapshot
  match aggCreate snapshot sheets dfCols with
  | .error e => .error e
  | .ok (sheets2, snapshot2) =>
    match snapshot2[1]? with
    | none => .error .indexError
    | some t1 =>
      match (wsValues sheets2 t1)[0]? with
      | none => .error .indexError
      | some headerRow =>
        match sheets2.find? (fun w => w.title == "all_data") with
        | none => .error .notFound
        | some w =>
          .ok (setFirstWs "all_data"
            { w with
              rowCount := consolidated.length + 1
              values := headerRow :: consolidated }
            sheets2)

/-- The spreadsheet part of `main`: snapshot the worksheet list, run the
per-file loop, and, only if no exception was raised, rebuild `all_data`.
The returned state is what the remote spreadsheet holds when the run
finishes or dies. -/
def runPipeline (initSheets : Sheets)
    (files : List (String × List RawRecord)) : Sheets × Option PyErr :=
  let snapshot := initSheets.map Worksheet.title
  match processFilesAux snapshot initSheets none files with
  | (sheets, _, some e) => (sheets, some e)
  | (sheets, dfCols, none) =>
    match aggregateStep snapshot sheets dfCols with
    | .error e => (sheets, some e)
    | .ok sheets2 => (sheets2, none)

/-- `os.path.join(a, b)` for the relative names used here. -/
def joinPath (a b : String) : String := a ++ "/" ++ b

/-- `os.listdir d` over a flat set of file paths: the entries directly
inside directory `d`. -/
def listdir (files : List String) (d : String) : List String :=
  files.filterMap (fun p =>
    if (d ++ "/").data.isPrefixOf p.data then
      let rest := String.mk (p.data.drop (d ++ "/").data.length)
      if rest.data.contains '/' then none else some rest
    else none)

/-- The download loop of `main`: for each remote key, re-list the data
directory, test the selection condition, and on selection call
`download_object(S3_BUCKET, s3_object, os.path.join(BASE_DIR, s3_object))`
— the target path joins the base directory, not the data directory. -/
def downloadLoop (baseDir : String) (files : List String) :
    List String → Except PyErr (List String)
  | [] => .ok files
  | k :: ks =>
    match selectsFile (listdir files (joinPath baseDir "data")) k with
    | .error e => .error e
    | .ok sel =>
      downloadLoop baseDir
        (if sel then files ++ [joinPath baseDir k] else files) ks

/-- The data files consumed by the cleaning loop:
`os.listdir(os.path.join(BASE_DIR, "data"))`. -/
def dataFilesOf (baseDir : String) (files : List String) : List String :=
  listdir files (joinPath baseDir "data")

/-- The object store: a list of (bucket, key, body) triples. -/
structure S3State where
  objects : List (String × String × String)
deriving DecidableEq, Repr

/-- `S3Client.get_s3_client` is decorated with `@contextmanager`, so
calling it returns a generator context-manager object; these are the only
attributes such an object exposes (in particular no S3 methods). -/
def ctxManagerAttrs : List String := ["__enter__", "__exit__"]

/-- Python attribute dispatch of `client.put_object(...)`: if the object
bound to `client` has no `put_object` attribute the call raises
`AttributeError`; on a real S3 client it stores the object. -/
def callPutObject (attrs : List String) (st : S3State)
    (bucket key body : String) : Except PyErr S3State :=
  if attrs.contains "put_object" then
    .ok { objects := st.objects ++ [(bucket, key, body)] }
  else .error .attributeError

/-- `S3Client.create_object` from `s3_api.py`: it binds
`client = self.get_s3_client()` without entering the context manager and
calls `client.put_object(...)`; every raised exception is swallowed by the
broad `except Exception` handler, which logs and returns `False`. -/
def create_object (st : S3State) (bucket key content : String) :
    Bool × S3State :=
  match callPutObject ctxManagerAttrs st bucket key content with
  | .ok st2 => (true, st2)
  | .error _ => (false, st)

/-- A cell as produced by `pd.read_csv`: an empty CSV field is read as
NaN, so a present string value is never empty. -/
def csvCell (c : Cell) : Prop := c ≠ some ""

/-- A raw row as produced by `pd.read_csv` (the five required columns). -/
def csvParsed (r : RawRecord) : Prop :=
  csvCell r.vin ∧ csvCell r.number ∧ csvCell r.status ∧
  csvCell r.region ∧ csvCell r.department

instance (c : Cell) : Decidable (csvCell c) :=
  inferInstanceAs (Decidable (c ≠ some ""))

instance (r : RawRecord) : Decidable (csvParsed r) :=
  inferInstanceAs (Decidable (csvCell r.vin ∧ csvCell r.number ∧
    csvCell r.status ∧ csvCell r.region ∧ csvCell r.department))

/-! ### Helper lemmas -/

theorem mk_data (s : String) : String.mk s.data = s := rfl

theorem splitChars_ne_nil (sep : Char) (l : List Char) :
    splitChars sep l ≠ [] := by
  induction l with
  | nil => simp [splitChars]
  | cons c cs ih =>
    simp only [splitChars]
    rcases h : splitChars sep cs with _ | ⟨g, gs⟩
    · exact absurd h ih
    · by_cases hc : c = sep <;> simp [hc]

theorem splitChars_head (sep : Char) (l : List Char) :
    ∃ gs, splitChars sep l = l.takeWhile (fun c => !(c == sep)) :: gs := by
  induction l with
  | nil => exact ⟨[], rfl⟩
  | cons c cs ih =>
    obtain ⟨gs, hg⟩ := ih
    simp only [splitChars]
    rw [hg]
    by_cases hc : c = sep
    · subst hc
      exact ⟨List.takeWhile (fun d => !(d == c)) cs :: gs, by
        simp [List.takeWhile_cons]⟩
    · exact ⟨gs, by simp [List.takeWhile_cons, hc]⟩

theorem splitChars_append_sep (sep : Char) (pre rest : List Char)
    (h : sep ∉ pre) :
    splitChars sep (pre ++ sep :: rest) = pre :: splitChars sep rest := by
  induction pre with
  | nil =>
    simp only [List.nil_append, splitChars]
    rcases hg : splitChars sep rest with _ | ⟨g, gs⟩
    · exact absurd hg (splitChars_ne_nil sep rest)
    · simp
  | cons c pre' ih =>
    have hc : c ≠ sep := fun hcc => h (hcc ▸ List.mem_cons_self c pre')
    have h' : sep ∉ pre' := fun hm => h (List.mem_cons_of_mem c hm)
    have ih' := ih h'
    simp only [List.cons_append, splitChars, List.append_eq] at *
    rw [ih']
    simp [hc]

theorem takeWhile_append_all (p : Char → Bool) (l₁ l₂ : List Char)
    (h : ∀ c ∈ l₁, p c = true) :
    (l₁ ++ l₂).takeWhile p = l₁ ++ l₂.takeWhile p := by
  induction l₁ with
  | nil => simp
  | cons c cs ih =>
    have hc := h c (List.mem_cons_self c cs)
    simp only [List.cons_append, List.takeWhile_cons, hc]
    simp [ih (fun d hd => h d (List.mem_cons_of_mem c hd))]

theorem uint32_le_iff (a b : UInt32) : a ≤ b ↔ a.toNat ≤ b.toNat := by
  rw [UInt32.le_def, BitVec.le_def]
  exact Iff.rfl

theorem toNat_bounds_of_isDigit {c : Char} (h : c.isDigit = true) :
    48 ≤ c.toNat ∧ c.toNat ≤ 57 := by
  simp only [Char.isDigit, Bool.and_eq_true, decide_eq_true_eq] at h
  obtain ⟨h1, h2⟩ := h
  constructor
  · exact (uint32_le_iff 48 c.val).mp h1
  · exact (uint32_le_iff c.val 57).mp h2

theorem char_eq_of_toNat {c d : Char} (h : c.toNat = d.toNat) : c = d :=
  Char.ext (UInt32.ext h)

theorem isDigit_ne_dash {c : Char} (h : c.isDigit = true) :
    c ≠ '-' ∧ c ≠ '+' := by
  obtain ⟨h1, _⟩ := toNat_bounds_of_isDigit h
  constructor
  · rintro rfl; simp at h1
  · rintro rfl; simp at h1

theorem charVal_le_nine {c : Char} (h : c.isDigit = true) :
    charVal c ≤ 9 := by
  obtain ⟨h1, h2⟩ := toNat_bounds_of_isDigit h
  unfold charVal Char.toNat at *
  omega

theorem char_eq_zero_of_isDigit {c : Char} (h : c.isDigit = true)
    (hv : charVal c = 0) : c = '0' := by
  obtain ⟨h1, _⟩ := toNat_bounds_of_isDigit h
  apply char_eq_of_toNat
  have h0 : ('0' : Char).toNat = 48 := rfl
  unfold charVal at hv
  omega

theorem char_eq_one_of_isDigit {c : Char} (h : c.isDigit = true)
    (hv : charVal c = 1) : c = '1' := by
  obtain ⟨h1, _⟩ := toNat_bounds_of_isDigit h
  apply char_eq_of_toNat
  have h0 : ('1' : Char).toNat = 49 := rfl
  unfold charVal at hv
  omega

theorem pyInt_two_digits {c1 c2 : Char} (h1 : c1.isDigit = true)
    (h2 : c2.isDigit = true) :
    pyInt (String.mk [c1, c2]) =
      some ((charVal c1 * 10 + charVal c2 : Nat) : Int) := by
  obtain ⟨hd1, hp1⟩ := isDigit_ne_dash h1
  simp only [pyInt, hd1, hp1, if_false, digitsVal]
  rw [if_pos]
  · simp [natOfDigits]
  · simp [h1, h2]

theorem isDigit_ne {c d : Char} (h : c.isDigit = true)
    (hd : d.isDigit = false) : c ≠ d := by
  rintro rfl
  rw [h] at hd
  cases hd

theorem digit_not_underscore {c : Char} (h : c.isDigit = true) :
    (!(c == '_')) = true := by
  have : c ≠ '_' := isDigit_ne h (by decide)
  simp [this]

theorem digit_not_dot {c : Char} (h : c.isDigit = true) :
    (!(c == '.')) = true := by
  have : c ≠ '.' := isDigit_ne h (by decide)
  simp [this]

theorem pySplit_getElem1 (n : String) (pre tail : List Char)
    (hn : n.data = pre ++ '_' :: tail) (h : '_' ∉ pre) :
    (pySplit '_' n)[1]? =
      some (String.mk (tail.takeWhile (fun c => !(c == '_')))) := by
  unfold pySplit
  rw [hn, splitChars_append_sep _ _ _ h]
  obtain ⟨gs, hg⟩ := splitChars_head '_' tail
  rw [hg]
  simp

theorem day_beq_bridge {day : String} {c1 c2 : Char}
    (hd : day.data = [c1, c2]) (h1 : c1.isDigit = true)
    (h2 : c2.isDigit = true) :
    (((charVal c1 * 10 + charVal c2 : Nat) : Int) == 1) = (day == "01") := by
  have hle := charVal_le_nine h2
  rw [Bool.eq_iff_iff]
  simp only [beq_iff_eq]
  constructor
  · intro h
    have hnat : charVal c1 * 10 + charVal c2 = 1 := by exact_mod_cast h
    have hv1 : charVal c1 = 0 := by omega
    have hv2 : charVal c2 = 1 := by omega
    have e1 := char_eq_zero_of_isDigit h1 hv1
    have e2 := char_eq_one_of_isDigit h2 hv2
    have hday : day = String.mk [c1, c2] := by rw [← mk_data day, hd]
    rw [hday, e1, e2]
  · intro h
    have hdata : day.data = ("01" : String).data := by rw [h]
    rw [hd] at hdata
    have hlist : [c1, c2] = ['0', '1'] := hdata
    injection hlist with e1 erest
    injection erest with e2 _
    subst e1; subst e2
    decide

theorem is_file_eval (n : String) (seg : String)
    (h : (pySplit '_' n)[1]? = some seg) (v : Int)
    (hv : pyInt (pySlice ((pySplit '.' seg).headD "") 6 8) = some v) :
    is_file_name_on_1st n = .ok (v == 1) := by
  unfold is_file_name_on_1st
  rw [h]
  show (match pyInt (pySlice ((pySplit '.' seg).headD "") 6 8) with
    | none => Except.error PyErr.valueError
    | some n => Except.ok (n == 1)) = Except.ok (v == 1)
  rw [hv]

theorem is_file_wellformed (pre d1 day d2 ext : String) (c1 c2 : Char)
    (hpre : '_' ∉ pre.data)
    (hd1len : d1.data.length = 6) (hd1 : ∀ c ∈ d1.data, c.isDigit = true)
    (hdd : day.data = [c1, c2]) (h1 : c1.isDigit = true)
    (h2 : c2.isDigit = true)
    (hd2 : ∀ c ∈ d2.data, c.isDigit = true) :
    is_file_name_on_1st (pre ++ "_" ++ d1 ++ day ++ d2 ++ "." ++ ext) =
      .ok (day == "01") := by
  have hday : ∀ c ∈ day.data, c.isDigit = true := by
    rw [hdd]
    intro c hc
    rcases hc with _ | ⟨_, _ | ⟨_, h⟩⟩
    · exact h1
    · exact h2
    · cases h
  have hdaylen : day.data.length = 2 := by rw [hdd]; rfl
  have hdata : (pre ++ "_" ++ d1 ++ day ++ d2 ++ "." ++ ext).data =
      pre.data ++ '_' ::
        (d1.data ++ (day.data ++ (d2.data ++ ('.' :: ext.data)))) := by
    have hu : ("_" : String).data = ['_'] := rfl
    have hp : ("." : String).data = ['.'] := rfl
    simp [String.data_append, hu, hp]
  have hseg := pySplit_getElem1 _ _ _ hdata hpre
  have htw : (d1.data ++ (day.data ++ (d2.data ++
        ('.' :: ext.data)))).takeWhile (fun c => !(c == '_')) =
      d1.data ++ (day.data ++ (d2.data ++
        ('.' :: ext.data.takeWhile (fun c => !(c == '_'))))) := by
    rw [takeWhile_append_all _ _ _
        (fun c hc => digit_not_underscore (hd1 c hc))]
    rw [takeWhile_append_all _ _ _
        (fun c hc => digit_not_underscore (hday c hc))]
    rw [takeWhile_append_all _ _ _
        (fun c hc => digit_not_underscore (hd2 c hc))]
    rw [List.takeWhile_cons]
    simp
  rw [htw] at hseg
  have hdotmem : '.' ∉ d1.data ++ (day.data ++ d2.data) := by
    intro hm
    have hdig : ('.' : Char).isDigit = true := by
      rcases List.mem_append.mp hm with hm1 | hm2
      · exact hd1 _ hm1
      · rcases List.mem_append.mp hm2 with a | b
        · exact hday _ a
        · exact hd2 _ b
    cases hdig
  have hsplitdot : splitChars '.'
        (d1.data ++ (day.data ++ (d2.data ++
          ('.' :: ext.data.takeWhile (fun c => !(c == '_')))))) =
      (d1.data ++ (day.data ++ d2.data)) ::
        splitChars '.' (ext.data.takeWhile (fun c => !(c == '_'))) := by
    rw [show d1.data ++ (day.data ++ (d2.data ++
          ('.' :: ext.data.takeWhile (fun c => !(c == '_'))))) =
        (d1.data ++ (day.data ++ d2.data)) ++
          ('.' :: ext.data.takeWhile (fun c => !(c == '_'))) by
      simp [List.append_assoc]]
    exact splitChars_append_sep _ _ _ hdotmem
  have hcore : (pySplit '.' (String.mk
        (d1.data ++ (day.data ++ (d2.data ++
          ('.' :: ext.data.takeWhile (fun c => !(c == '_')))))))).headD "" =
      String.mk (d1.data ++ (day.data ++ d2.data)) := by
    unfold pySplit
    rw [show (String.mk (d1.data ++ (day.data ++ (d2.data ++
        ('.' :: ext.data.takeWhile (fun c => !(c == '_'))))))).data =
        d1.data ++ (day.data ++ (d2.data ++
          ('.' :: ext.data.takeWhile (fun c => !(c == '_'))))) from rfl]
    rw [hsplitdot]
    rfl
  have hslice : pySlice (String.mk (d1.data ++ (day.data ++ d2.data))) 6 8 =
      String.mk [c1, c2] := by
    unfold pySlice
    rw [show (String.mk (d1.data ++ (day.data ++ d2.data))).data =
        d1.data ++ (day.data ++ d2.data) from rfl]
    rw [List.drop_left' hd1len, show (8 : Nat) - 6 = 2 from rfl,
      List.take_left' hdaylen, hdd]
  have hv : pyInt (pySlice ((pySplit '.' (String.mk
        (d1.data ++ (day.data ++ (d2.data ++
          ('.' :: ext.data.takeWhile (fun c => !(c == '_')))))))).headD "")
        6 8) =
      some ((charVal c1 * 10 + charVal c2 : Nat) : Int) := by
    rw [hcore, hslice]
    exact pyInt_two_digits h1 h2
  rw [is_file_eval _ _ hseg _ hv, day_beq_bridge hdd h1 h2]

/-! ### Claim C2 -/

/-- C2 (counterexample): the claim asserts that `export_202401010300.csv`
is selected; in the code the selection condition also requires the
substring `cars`, which this name lacks, so with nothing downloaded yet
the file is still not selected. -/
theorem export_file_not_selected :
    selectsFile [] "export_202401010300.csv" = Except.ok false := by
  rfl

/-- C2 (amended): for a well-formed name `<prefix>_YYYYMMDDhhmmss.<ext>`
(no underscore in the prefix), the File Selector selects the file iff the
name contains the substring `cars`, the day digits equal `01`, and the
name is not among the already-downloaded ones; `cars_202401010300.csv` is
selected while `export_202401010300.csv` is not. -/
theorem selector_characterization :
    (∀ (pre d1 day d2 ext : String) (downloaded : List String),
      '_' ∉ pre.data →
      d1.data.length = 6 → (∀ c ∈ d1.data, c.isDigit = true) →
      day.data.length = 2 → (∀ c ∈ day.data, c.isDigit = true) →
      (∀ c ∈ d2.data, c.isDigit = true) →
      selectsFile downloaded (pre ++ "_" ++ d1 ++ day ++ d2 ++ "." ++ ext) =
        Except.ok
          (pyContains "cars" (pre ++ "_" ++ d1 ++ day ++ d2 ++ "." ++ ext)
            && (day == "01")
            && !(downloaded.contains
                  (pre ++ "_" ++ d1 ++ day ++ d2 ++ "." ++ ext)))) ∧
    selectsFile [] "cars_202401010300.csv" = Except.ok true ∧
    selectsFile [] "export_202401010300.csv" = Except.ok false := by
  refine ⟨?_, by rfl, by rfl⟩
  intro pre d1 day d2 ext downloaded hpre hd1len hd1 hdaylen hday hd2
  obtain ⟨c1, c2, hdd⟩ := List.length_eq_two.mp hdaylen
  have h1 : c1.isDigit = true := hday c1 (by rw [hdd]; exact List.mem_cons_self _ _)
  have h2 : c2.isDigit = true := hday c2 (by rw [hdd]; simp)
  have hfile := is_file_wellformed pre d1 day d2 ext c1 c2 hpre hd1len hd1
    hdd h1 h2 hd2
  by_cases hc : pyContains "cars" (pre ++ "_" ++ d1 ++ day ++ d2 ++ "." ++ ext) = true
  · simp [selectsFile, hc, hfile]
  · have hcf : pyContains "cars" (pre ++ "_" ++ d1 ++ day ++ d2 ++ "." ++ ext) = false :=
      Bool.not_eq_true _ ▸ by simpa using hc
    simp [selectsFile, hcf]

/-- C2 (witness): the characterization applied to the concrete name
`cars_20240101030000.csv` with nothing downloaded. -/
theorem selector_characterization_witness :
    selectsFile [] ("cars" ++ "_" ++ "202401" ++ "01" ++ "030000" ++ "." ++ "csv") =
      Except.ok
        (pyContains "cars" ("cars" ++ "_" ++ "202401" ++ "01" ++ "030000" ++ "." ++ "csv")
          && (("01" : String) == "01")
          && !(([] : List String).contains
                ("cars" ++ "_" ++ "202401" ++ "01" ++ "030000" ++ "." ++ "csv"))) :=
  selector_characterization.1 "cars" "202401" "01" "030000" "csv" []
    (by decide) (by decide) (by decide) (by decide) (by decide) (by decide)

/-! ### Claim C5 -/

/-- C5 (code_bug): on a malformed remote key that contains `cars` but has
no underscore-delimited date segment, `is_file_name_on_1st` raises
`IndexError` (Python `"cars.csv".split("_")[1]` is out of range), so the
selection condition in `main` propagates the exception and the run
crashes instead of skipping the key; a key with a too-short date segment
raises `ValueError` from `int("")`. -/
theorem selection_raises_on_malformed_name :
    is_file_name_on_1st "cars.csv" = Except.error PyErr.indexError ∧
    selectsFile [] "cars.csv" = Except.error PyErr.indexError ∧
    is_file_name_on_1st "cars_ab.csv" = Except.error PyErr.valueError ∧
    selectsFile [] "cars_ab.csv" = Except.error PyErr.valueError := by
  refine ⟨by rfl, by rfl, by rfl, by rfl⟩

theorem sheet_name_eval (n seg : String)
    (h : (pySplit '_' n)[1]? = some seg) (y m d : Nat)
    (hp : strptime8 (String.mk (seg.data.take 8)) = some (y, m, d)) :
    get_sheet_name n = Except.ok (fmtDate y m d) := by
  unfold get_sheet_name
  rw [h]
  show (match strptime8 (String.mk (seg.data.take 8)) with
    | none => Except.error PyErr.valueError
    | some (y, m, d) => Except.ok (fmtDate y m d)) = Except.ok (fmtDate y m d)
  rw [hp]

theorem sheet_name_eval_err (n seg : String)
    (h : (pySplit '_' n)[1]? = some seg)
    (hp : strptime8 (String.mk (seg.data.take 8)) = none) :
    get_sheet_name n = Except.error PyErr.valueError := by
  unfold get_sheet_name
  rw [h]
  show (match strptime8 (String.mk (seg.data.take 8)) with
    | none => Except.error PyErr.valueError
    | some (y, m, d) => Except.ok (fmtDate y m d)) =
      Except.error PyErr.valueError
  rw [hp]

/-! ### Claim C8 -/

/-- C8: for a file name whose date segment starts with 8 digits forming a
valid `YYYYMMDD` date, the derived tab name is that date formatted as
`YYYY-MM-DD`; and when the first 8 characters of the date segment do not
parse as a `YYYYMMDD` date, `get_sheet_name` raises the `strptime`
`ValueError` — a fatal parse error for that file. -/
theorem sheet_name_derivation :
    (∀ (pre s8 rest : String) (y m d : Nat),
      '_' ∉ pre.data →
      strptime8 s8 = some (y, m, d) →
      get_sheet_name (pre ++ "_" ++ s8 ++ rest) = Except.ok (fmtDate y m d)) ∧
    (∀ (n seg : String),
      (pySplit '_' n)[1]? = some seg →
      strptime8 (String.mk (seg.data.take 8)) = none →
      get_sheet_name n = Except.error PyErr.valueError) := by
  constructor
  · intro pre s8 rest y m d hpre hparse
    have hcond : s8.data.length = 8 ∧ s8.data.all Char.isDigit := by
      by_contra hnc
      rw [strptime8] at hparse
      rw [if_neg hnc] at hparse
      cases hparse
    have hdig : ∀ c ∈ s8.data, c.isDigit = true :=
      List.all_eq_true.mp hcond.2
    have hdata : (pre ++ "_" ++ s8 ++ rest).data =
        pre.data ++ '_' :: (s8.data ++ rest.data) := by
      have hu : ("_" : String).data = ['_'] := rfl
      simp [String.data_append, hu]
    have hseg := pySplit_getElem1 _ _ _ hdata hpre
    have htw : (s8.data ++ rest.data).takeWhile (fun c => !(c == '_')) =
        s8.data ++ rest.data.takeWhile (fun c => !(c == '_')) :=
      takeWhile_append_all _ _ _
        (fun c hc => digit_not_underscore (hdig c hc))
    rw [htw] at hseg
    apply sheet_name_eval _ _ hseg
    rw [show (String.mk (s8.data ++
        rest.data.takeWhile (fun c => !(c == '_')))).data =
        s8.data ++ rest.data.takeWhile (fun c => !(c == '_')) from rfl]
    rw [List.take_left' hcond.1, mk_data]
    exact hparse
  · intro n seg hsome hnone
    exact sheet_name_eval_err n seg hsome hnone

/-- C8 (witness): `export_202401010300.csv` yields tab name
`fmtDate 2024 1 1 = "2024-01-01"`, and `cars_2024ab010300.csv`, whose
date segment does not start with a valid `YYYYMMDD`, raises. -/
theorem sheet_name_derivation_witness :
    get_sheet_name ("export" ++ "_" ++ "20240101" ++ "0300.csv") =
      Except.ok (fmtDate 2024 1 1) ∧
    get_sheet_name "cars_2024ab010300.csv" =
      Except.error PyErr.valueError :=
  ⟨sheet_name_derivation.1 "export" "20240101" "0300.csv" 2024 1 1
      (by decide) (by decide),
   sheet_name_derivation.2 "cars_2024ab010300.csv" "2024ab010300.csv"
      (by decide) (by decide)⟩

theorem cleanRows_mem {rows : List RawRecord} {mid : List CanonRecord}
    (h : cleanRows rows = .ok mid) :
    ∀ c ∈ mid, ∃ r ∈ rows, keepRow r = true ∧ fromRaw r = .ok c := by
  induction rows generalizing mid with
  | nil =>
    simp only [cleanRows, Except.ok.injEq] at h
    subst h
    intro c hc
    cases hc
  | cons r rs ih =>
    by_cases hk : keepRow r
    · rw [cleanRows, if_pos hk] at h
      rcases hfr : fromRaw r with e | c0
      · rw [hfr] at h; cases h
      · rw [hfr] at h
        rcases hcr : cleanRows rs with e | cs
        · rw [hcr] at h; cases h
        · rw [hcr] at h
          simp only [Except.ok.injEq] at h
          subst h
          intro c hc
          rcases hc with _ | ⟨_, hc⟩
          · exact ⟨r, List.mem_cons_self _ _, hk, hfr⟩
          · obtain ⟨r', hr', hk', hfr'⟩ := ih hcr c hc
            exact ⟨r', List.mem_cons_of_mem _ hr', hk', hfr'⟩
    · rw [cleanRows, if_neg hk] at h
      intro c hc
      obtain ⟨r', hr', hk', hfr'⟩ := ih h c hc
      exact ⟨r', List.mem_cons_of_mem _ hr', hk', hfr'⟩

theorem keepRow_parts {r : RawRecord} (hk : keepRow r = true) :
    requiredPresent r = true ∧
    cellIsin r.status ["АРХИВ", "ЛИЧНАЯ"] = false ∧
    cellIsin r.department ["ЛИЧНАЯ"] = false ∧
    cellIsin r.model ["БЭТМОБИЛЬ"] = false ∧
    cellIsin r.yearCar ["0001-01-01T00:00:00"] = false := by
  unfold keepRow notExcluded at hk
  simp only [Bool.and_eq_true, Bool.not_eq_true'] at hk
  tauto

theorem getD_ne_empty {c : Cell} {s : String} (hc : c = some s)
    (hne : csvCell c) : c.getD "" ≠ "" := by
  subst hc
  simpa [csvCell] using hne

theorem cellIsin_ne {c : Cell} {vals : List String} {s : String}
    (hf : cellIsin c vals = false) (hc : c = some s) : s ∉ vals := by
  subst hc
  have hf' : vals.contains s = false := hf
  simp at hf'
  exact hf'

theorem fromRaw_fields {r : RawRecord} {c : CanonRecord}
    (hfr : fromRaw r = .ok c) :
    c.model = r.model.getD "" ∧
    c.year = String.mk ((pyStr r.yearCar).data.take 4) ∧
    c.number = r.number.getD "" ∧
    c.vin = r.vin.getD "" ∧
    c.department = r.department.getD "" ∧
    c.region = r.region.getD "" ∧
    c.status = r.status.getD "" := by
  unfold fromRaw at hfr
  rcases hts : strptime14 (pyStr r.timestamp) with _ | ⟨y, m, d⟩
  · rw [hts] at hfr; cases hfr
  · rw [hts] at hfr
    simp only [Except.ok.injEq] at hfr
    subst hfr
    exact ⟨rfl, rfl, rfl, rfl, rfl, rfl, rfl⟩

/-! ### Claim C1 -/

/-- C1 (counterexample): the claim asserts every cleaned row has a year of
exactly 4 characters; the code computes `str(x)[:4]`, which keeps a
shorter source YearCar as-is, so the retained row with YearCar `"99"` is
published with a 2-character year. -/
theorem clean_year_not_four_chars :
    cleanFile [⟨some "VIN2", some "N2", some "АКТИВНАЯ", some "Москва",
        some "Отдел", some "KAMAZ", some "99", some "20240101030000"⟩] =
      Except.ok [⟨"2024-01-01", "KAMAZ", "99", "N2", "VIN2", "Отдел",
        "Москва", "АКТИВНАЯ"⟩] ∧
    (({ date := "2024-01-01", model := "KAMAZ", year := "99",
        number := "N2", vin := "VIN2", department := "Отдел",
        region := "Москва", status := "АКТИВНАЯ" } : CanonRecord)).year.length
      ≠ 4 := by
  exact ⟨by rfl, by decide⟩

/-- C1 (amended): every row of a table produced by the Record Cleaner has
non-empty VIN, Number, Status, Region and Department; its status is not
АРХИВ or ЛИЧНАЯ; its department is not ЛИЧНАЯ; its model is not
БЭТМОБИЛЬ; its source YearCar is not the zero-date sentinel; and its year
field is the first `min 4 |YearCar|` characters of the source YearCar —
exactly 4 characters when the source string has at least 4. -/
theorem clean_record_invariants :
    ∀ (rows : List RawRecord) (out : List CanonRecord),
      (∀ r ∈ rows, csvParsed r) →
      cleanFile rows = .ok out →
      ∀ c ∈ out,
        c.vin ≠ "" ∧ c.number ≠ "" ∧ c.status ≠ "" ∧ c.region ≠ "" ∧
        c.department ≠ "" ∧
        c.status ∉ (["АРХИВ", "ЛИЧНАЯ"] : List String) ∧
        c.department ≠ "ЛИЧНАЯ" ∧
        c.model ≠ "БЭТМОБИЛЬ" ∧
        c.year.length ≤ 4 ∧
        ∃ r ∈ rows, keepRow r = true ∧
          r.yearCar ≠ some "0001-01-01T00:00:00" ∧
          c.year = String.mk ((pyStr r.yearCar).data.take 4) ∧
          (4 ≤ (pyStr r.yearCar).data.length → c.year.length = 4) := by
  intro rows out hcsv hclean c hc
  rcases hcr : cleanRows rows with e | mid
  · rw [cleanFile, hcr] at hclean
    have h' : (Except.error e : Except PyErr (List CanonRecord)) =
        Except.ok out := hclean
    cases h'
  · rw [cleanFile, hcr] at hclean
    have h' : Except.ok (sortCanon mid) = Except.ok out := hclean
    injection h' with h''
    subst h'' 
    have hcmid : c ∈ mid := by
      have := List.mem_insertionSort keyLE (l := mid) (x := c)
      rw [← this]
      exact hc
    obtain ⟨r, hr, hk, hfr⟩ := cleanRows_mem hcr c hcmid
    obtain ⟨hreq, hst, hdep, hmod, hyc⟩ := keepRow_parts hk
    obtain ⟨hcm, hcy, hcn, hcv, hcd, hcr2, hcs⟩ := fromRaw_fields hfr
    obtain ⟨pv, pn, ps, pr, pd⟩ := hcsv r hr
    simp only [requiredPresent, Bool.and_eq_true, Option.isSome_iff_exists]
      at hreq
    obtain ⟨⟨⟨⟨⟨sv, hsv⟩, ⟨sn, hsn⟩⟩, ⟨ss, hss⟩⟩, ⟨sr, hsr⟩⟩, ⟨sd, hsd⟩⟩ := hreq
    refine ⟨?_, ?_, ?_, ?_, ?_, ?_, ?_, ?_, ?_, ?_⟩
    · rw [hcv]; exact getD_ne_empty hsv pv
    · rw [hcn]; exact getD_ne_empty hsn pn
    · rw [hcs]; exact getD_ne_empty hss ps
    · rw [hcr2]; exact getD_ne_empty hsr pr
    · rw [hcd]; exact getD_ne_empty hsd pd
    · rw [hcs, hss]
      exact cellIsin_ne hst hss
    · rw [hcd, hsd]
      intro he
      exact cellIsin_ne hdep hsd (he ▸ List.mem_cons_self _ _)
    · rcases hm : r.model with _ | sm
      · rw [hcm, hm]
        decide
      · rw [hcm, hm]
        intro he
        exact cellIsin_ne hmod hm (he ▸ List.mem_cons_self _ _)
    · rw [hcy]
      have : ((pyStr r.yearCar).data.take 4).length ≤ 4 :=
        le_trans (Nat.le_of_eq (List.length_take _ _)) (Nat.min_le_left _ _)
      exact this
    · refine ⟨r, hr, hk, ?_, hcy, ?_⟩
      · intro he
        exact cellIsin_ne hyc he (List.mem_cons_self _ _)
      · intro hlen
        rw [hcy]
        show ((pyStr r.yearCar).data.take 4).length = 4
        rw [List.length_take]
        omega

/-- C1 (witness): the amended invariants applied to a one-row table with
a 4-character YearCar, instantiated at its single output row. -/
theorem clean_record_invariants_witness :
    (({ date := "2024-01-01", model := "KAMAZ", year := "2015",
        number := "N1", vin := "VIN1", department := "Отдел",
        region := "Москва", status := "АКТИВНАЯ" } : CanonRecord)).vin ≠ "" ∧
    (({ date := "2024-01-01", model := "KAMAZ", year := "2015",
        number := "N1", vin := "VIN1", department := "Отдел",
        region := "Москва", status := "АКТИВНАЯ" } : CanonRecord)).number ≠ "" ∧
    (({ date := "2024-01-01", model := "KAMAZ", year := "2015",
        number := "N1", vin := "VIN1", department := "Отдел",
        region := "Москва", status := "АКТИВНАЯ" } : CanonRecord)).status ≠ "" ∧
    (({ date := "2024-01-01", model := "KAMAZ", year := "2015",
        number := "N1", vin := "VIN1", department := "Отдел",
        region := "Москва", status := "АКТИВНАЯ" } : CanonRecord)).region ≠ "" ∧
    (({ date := "2024-01-01", model := "KAMAZ", year := "2015",
        number := "N1", vin := "VIN1", department := "Отдел",
        region := "Москва", status := "АКТИВНАЯ" } : CanonRecord)).department ≠ "" ∧
    (({ date := "2024-01-01", model := "KAMAZ", year := "2015",
        number := "N1", vin := "VIN1", department := "Отдел",
        region := "Москва", status := "АКТИВНАЯ" } : CanonRecord)).status ∉
      (["АРХИВ", "ЛИЧНАЯ"] : List String) ∧
    (({ date := "2024-01-01", model := "KAMAZ", year := "2015",
        number := "N1", vin := "VIN1", department := "Отдел",
        region := "Москва", status := "АКТИВНАЯ" } : CanonRecord)).department ≠
      "ЛИЧНАЯ" ∧
    (({ date := "2024-01-01", model := "KAMAZ", year := "2015",
        number := "N1", vin := "VIN1", department := "Отдел",
        region := "Москва", status := "АКТИВНАЯ" } : CanonRecord)).model ≠
      "БЭТМОБИЛЬ" ∧
    (({ date := "2024-01-01", model := "KAMAZ", year := "2015",
        number := "N1", vin := "VIN1", department := "Отдел",
        region := "Москва", status := "АКТИВНАЯ" } : CanonRecord)).year.length
      ≤ 4 ∧
    ∃ r ∈ [(⟨some "VIN1", some "N1", some "АКТИВНАЯ", some "Москва",
        some "Отдел", some "KAMAZ", some "2015-01-01T00:00:00",
        some "20240101030000"⟩ : RawRecord)], keepRow r = true ∧
      r.yearCar ≠ some "0001-01-01T00:00:00" ∧
      (({ date := "2024-01-01", model := "KAMAZ", year := "2015",
          number := "N1", vin := "VIN1", department := "Отдел",
          region := "Москва", status := "АКТИВНАЯ" } : CanonRecord)).year =
        String.mk ((pyStr r.yearCar).data.take 4) ∧
      (4 ≤ (pyStr r.yearCar).data.length →
        (({ date := "2024-01-01", model := "KAMAZ", year := "2015",
            number := "N1", vin := "VIN1", department := "Отдел",
            region := "Москва", status := "АКТИВНАЯ" } : CanonRecord)).year.length
          = 4) :=
  clean_record_invariants
    [⟨some "VIN1", some "N1", some "АКТИВНАЯ", some "Москва",
      some "Отдел", some "KAMAZ", some "2015-01-01T00:00:00",
      some "20240101030000"⟩]
    [{ date := "2024-01-01", model := "KAMAZ", year := "2015",
       number := "N1", vin := "VIN1", department := "Отдел",
       region := "Москва", status := "АКТИВНАЯ" }]
    (by decide) (by rfl)
    ({ date := "2024-01-01", model := "KAMAZ", year := "2015",
       number := "N1", vin := "VIN1", department := "Отдел",
       region := "Москва", status := "АКТИВНАЯ" })
    (List.mem_cons_self _ _)

theorem empty_le_string (s : String) : "" ≤ s := by
  rcases eq_or_ne s "" with rfl | h
  · exact le_refl _
  · apply le_of_lt
    rw [String.lt_iff_toList_lt]
    rcases hs : s.toList with _ | ⟨c, cs⟩
    · exact absurd (by rw [← String.asString_toList s, hs]; rfl) h
    · exact List.nil_lt_cons c cs

theorem blanks_le (l : List String) : List.replicate l.length "" ≤ l := by
  induction l with
  | nil => exact le_refl _
  | cons a l ih =>
    rw [List.length_cons, List.replicate_succ]
    rcases eq_or_ne a "" with rfl | ha
    · rcases lt_or_eq_of_le ih with hlt | heq
      · exact le_of_lt (List.Lex.cons hlt)
      · exact le_of_eq (by rw [heq])
    · exact le_of_lt (List.Lex.rel (lt_of_le_of_ne (empty_le_string a) (Ne.symm ha)))

theorem filter_orderedInsert_pos (k : List String) (a : CanonRecord)
    (l : List CanonRecord) (ha : keyList a = k) :
    (List.orderedInsert keyLE a l).filter (fun c => decide (keyList c = k)) =
      a :: l.filter (fun c => decide (keyList c = k)) := by
  induction l with
  | nil => simp [List.orderedInsert, ha]
  | cons b l ih =>
    by_cases hab : keyLE a b
    · rw [List.orderedInsert, if_pos hab]
      rw [List.filter_cons_of_pos (by simp [ha])]
    · rw [List.orderedInsert, if_neg hab]
      have hbk : keyList b ≠ k := by
        intro hbk
        exact hab (le_of_eq (ha.trans hbk.symm))
      rw [List.filter_cons_of_neg (by simp [hbk]), ih,
        List.filter_cons_of_neg (by simp [hbk])]

theorem filter_orderedInsert_neg (k : List String) (a : CanonRecord)
    (l : List CanonRecord) (ha : keyList a ≠ k) :
    (List.orderedInsert keyLE a l).filter (fun c => decide (keyList c = k)) =
      l.filter (fun c => decide (keyList c = k)) := by
  induction l with
  | nil => simp [List.orderedInsert, ha]
  | cons b l ih =>
    by_cases hab : keyLE a b
    · rw [List.orderedInsert, if_pos hab]
      rw [List.filter_cons_of_neg (by simp [ha])]
    · rw [List.orderedInsert, if_neg hab]
      by_cases hbk : keyList b = k
      · rw [List.filter_cons_of_pos (by simp [hbk]), ih,
          List.filter_cons_of_pos (by simp [hbk])]
      · rw [List.filter_cons_of_neg (by simp [hbk]), ih,
          List.filter_cons_of_neg (by simp [hbk])]

theorem filter_sortCanon (k : List String) (l : List CanonRecord) :
    (sortCanon l).filter (fun c => decide (keyList c = k)) =
      l.filter (fun c => decide (keyList c = k)) := by
  induction l with
  | nil => rfl
  | cons a l ih =>
    show (List.orderedInsert keyLE a
        (List.insertionSort keyLE l)).filter (fun c => decide (keyList c = k)) =
      (a :: l).filter (fun c => decide (keyList c = k))
    have ih' : (List.insertionSort keyLE l).filter
        (fun c => decide (keyList c = k)) =
        l.filter (fun c => decide (keyList c = k)) := ih
    by_cases ha : keyList a = k
    · rw [filter_orderedInsert_pos k a _ ha, ih',
        List.filter_cons_of_pos (by simp [ha])]
    · rw [filter_orderedInsert_neg k a _ ha, ih',
        List.filter_cons_of_neg (by simp [ha])]

/-! ### Claim C7 -/

/-- C7: the Record Cleaner's output is the stable ascending sort of the
filtered-and-transformed rows by the key (model, year, department,
region): the output is sorted with respect to the total lexicographic
comparison `keyLE`, rows with equal keys keep their relative input order
(the filter at any fixed key is unchanged), and a row whose key fields
are all the empty string — the fill value for missing cells — compares
at or below every row. -/
theorem cleaner_sort_sorted_stable :
    ∀ (rows : List RawRecord) (mid : List CanonRecord),
      cleanRows rows = .ok mid →
      cleanFile rows = .ok (sortCanon mid) ∧
      List.Sorted keyLE (sortCanon mid) ∧
      (∀ k : List String,
        (sortCanon mid).filter (fun c => decide (keyList c = k)) =
          mid.filter (fun c => decide (keyList c = k))) ∧
      (∀ a b : CanonRecord, keyLE a b ∨ keyLE b a) ∧
      (∀ b : CanonRecord, keyLE ⟨"", "", "", "", "", "", "", ""⟩ b) := by
  intro rows mid h
  refine ⟨?_, ?_, ?_, ?_, ?_⟩
  · rw [cleanFile, h]
    rfl
  · exact List.sorted_insertionSort keyLE mid
  · exact fun k => filter_sortCanon k mid
  · exact fun a b => le_total (keyList a) (keyList b)
  · intro b
    show keyList ⟨"", "", "", "", "", "", "", ""⟩ ≤ keyList b
    have h4 : (keyList b).length = 4 := rfl
    have := blanks_le (keyList b)
    rw [h4] at this
    exact this

/-- C7 (witness): the sort characterization applied to a concrete two-row
cleaning whose rows share the sort key. -/
theorem cleaner_sort_sorted_stable_witness :
    cleanFile [⟨some "VINB", some "N2", some "АКТИВНАЯ", some "Москва",
        some "Отдел", some "KAMAZ", some "2015", some "20240101030000"⟩,
      ⟨some "VINA", some "N1", some "АКТИВНАЯ", some "Москва",
        some "Отдел", some "KAMAZ", some "2015", some "20240101030000"⟩] =
      .ok (sortCanon
        [⟨"2024-01-01", "KAMAZ", "2015", "N2", "VINB", "Отдел", "Москва",
          "АКТИВНАЯ"⟩,
         ⟨"2024-01-01", "KAMAZ", "2015", "N1", "VINA", "Отдел", "Москва",
          "АКТИВНАЯ"⟩]) ∧
    List.Sorted keyLE (sortCanon
        [⟨"2024-01-01", "KAMAZ", "2015", "N2", "VINB", "Отдел", "Москва",
          "АКТИВНАЯ"⟩,
         ⟨"2024-01-01", "KAMAZ", "2015", "N1", "VINA", "Отдел", "Москва",
          "АКТИВНАЯ"⟩]) ∧
    (∀ k : List String,
      (sortCanon
        [⟨"2024-01-01", "KAMAZ", "2015", "N2", "VINB", "Отдел", "Москва",
          "АКТИВНАЯ"⟩,
         ⟨"2024-01-01", "KAMAZ", "2015", "N1", "VINA", "Отдел", "Москва",
          "АКТИВНАЯ"⟩]).filter (fun c => decide (keyList c = k)) =
        ([⟨"2024-01-01", "KAMAZ", "2015", "N2", "VINB", "Отдел", "Москва",
          "АКТИВНАЯ"⟩,
         ⟨"2024-01-01", "KAMAZ", "2015", "N1", "VINA", "Отдел", "Москва",
          "АКТИВНАЯ"⟩] : List CanonRecord).filter
            (fun c => decide (keyList c = k))) ∧
    (∀ a b : CanonRecord, keyLE a b ∨ keyLE b a) ∧
    (∀ b : CanonRecord, keyLE ⟨"", "", "", "", "", "", "", ""⟩ b) :=
  cleaner_sort_sorted_stable
    [⟨some "VINB", some "N2", some "АКТИВНАЯ", some "Москва",
        some "Отдел", some "KAMAZ", some "2015", some "20240101030000"⟩,
      ⟨some "VINA", some "N1", some "АКТИВНАЯ", some "Москва",
        some "Отдел", some "KAMAZ", some "2015", some "20240101030000"⟩]
    [⟨"2024-01-01", "KAMAZ", "2015", "N2", "VINB", "Отдел", "Москва",
        "АКТИВНАЯ"⟩,
     ⟨"2024-01-01", "KAMAZ", "2015", "N1", "VINA", "Отдел", "Москва",
        "АКТИВНАЯ"⟩]
    (by rfl)

theorem aggCreate_spec {snapshot : List String} {sheets : Sheets}
    {dfCols : Option Nat} {s2 : Sheets} {sn2 : List String}
    (h : aggCreate snapshot sheets dfCols = .ok (s2, sn2)) :
    (snapshot.contains "all_data" = true ∧
     (sheets.map Worksheet.title).contains "all_data" = true ∧
     s2 = sheets ∧ sn2 = snapshot) ∨
    (snapshot.contains "all_data" = false ∧
     (sheets.map Worksheet.title).contains "all_data" = false ∧
     s2 = sheets ++ [⟨"all_data", 1, []⟩] ∧
     sn2 = snapshot ++ ["all_data"]) := by
  unfold aggCreate at h
  by_cases hc : snapshot.contains "all_data"
  · rw [hc] at h
    simp only [Bool.not_true] at h
    rw [if_neg (by simp)] at h
    by_cases hl : (sheets.map Worksheet.title).contains "all_data"
    · rw [if_pos hl] at h
      simp only [Except.ok.injEq, Prod.mk.injEq] at h
      exact Or.inl ⟨hc, hl, h.1.symm, h.2.symm⟩
    · rw [if_neg hl] at h
      cases h
  · have hcf : snapshot.contains "all_data" = false := by
      simpa using hc
    rw [hcf] at h
    simp only [Bool.not_false] at h
    rw [if_pos trivial] at h
    rcases dfCols with _ | c
    · cases h
    · by_cases hl : (sheets.map Worksheet.title).contains "all_data"
      · rw [if_pos hl] at h
        cases h
      · rw [if_neg hl] at h
        simp only [Except.ok.injEq, Prod.mk.injEq] at h
        exact Or.inr ⟨hcf, by simpa using hl, h.1.symm, h.2.symm⟩

theorem mem_setFirstWs {t : String} (w' : Worksheet) {sheets : Sheets}
    (h : ∃ w ∈ sheets, w.title = t) : w' ∈ setFirstWs t w' sheets := by
  induction sheets with
  | nil =>
    obtain ⟨w, hw, _⟩ := h
    cases hw
  | cons w ws ih =>
    rw [setFirstWs]
    by_cases hb : (w.title == t) = true
    · rw [if_pos hb]
      exact List.mem_cons_self _ _
    · rw [if_neg hb]
      obtain ⟨w0, hw0, ht0⟩ := h
      cases hw0 with
      | head => exact absurd ht0 (by simpa using hb)
      | tail _ hw0 =>
        exact List.mem_cons_of_mem _ (ih ⟨w0, hw0, ht0⟩)

theorem wsValues_append_fresh {sheets : Sheets} {t : String}
    (h : t ≠ "all_data") :
    wsValues (sheets ++ [⟨"all_data", 1, []⟩]) t = wsValues sheets t := by
  unfold wsValues
  rw [List.find?_append]
  have hbeq : (("all_data" : String) == t) = false := by
    rw [beq_eq_false_iff_ne]
    exact Ne.symm h
  have hfr : ([(⟨"all_data", 1, []⟩ : Worksheet)]).find?
      (fun w => w.title == t) = none := by
    simp [List.find?, hbeq]
  rw [hfr]
  cases hf : sheets.find? (fun w => w.title == t) <;> simp [hf]

theorem wsValues_fresh {sheets : Sheets}
    (h : (sheets.map Worksheet.title).contains "all_data" = false) :
    wsValues (sheets ++ [⟨"all_data", 1, []⟩]) "all_data" = [] := by
  unfold wsValues
  rw [List.find?_append]
  have hmem : "all_data" ∉ sheets.map Worksheet.title := by simpa using h
  have hf : sheets.find? (fun w => w.title == "all_data") = none := by
    rw [List.find?_eq_none]
    intro x hx hbeq
    apply hmem
    rw [← eq_of_beq hbeq]
    exact List.mem_map_of_mem Worksheet.title hx
  rw [hf]
  simp [List.find?]

theorem consolidate_length (sheets : Sheets) (ts : List String) :
    (consolidate sheets ts).length =
      ((ts.filter (fun t => !(excludedTab t))).map
        (fun t => ((wsValues sheets t).drop 1).length)).sum := by
  induction ts with
  | nil => rfl
  | cons t ts ih =>
    rw [consolidate]
    by_cases h : excludedTab t = true
    · simp [h, ih]
    · have hf : excludedTab t = false := by simpa using h
      simp [hf, ih]

theorem aggregateStep_ok_eval {snapshot : List String} {sheets : Sheets}
    {dfCols : Option Nat} {s2 : Sheets} {sn2 : List String} {t1 : String}
    {hdr : List String} {w : Worksheet}
    (hC : aggCreate snapshot sheets dfCols = .ok (s2, sn2))
    (h1 : sn2[1]? = some t1)
    (h2 : (wsValues s2 t1)[0]? = some hdr)
    (h3 : s2.find? (fun w => w.title == "all_data") = some w) :
    aggregateStep snapshot sheets dfCols =
      .ok (setFirstWs "all_data"
        { w with rowCount := (consolidate sheets snapshot).length + 1,
                 values := hdr :: consolidate sheets snapshot } s2) := by
  unfold aggregateStep
  rw [hC]
  show (match sn2[1]? with
    | none => Except.error PyErr.indexError
    | some t1 =>
      match (wsValues s2 t1)[0]? with
      | none => Except.error PyErr.indexError
      | some headerRow =>
        match s2.find? (fun (w : Worksheet) => w.title == "all_data") with
        | none => Except.error PyErr.notFound
        | some w =>
          Except.ok (setFirstWs "all_data"
            { w with rowCount := (consolidate sheets snapshot).length + 1,
                     values := headerRow :: consolidate sheets snapshot }
            s2)) = _
  rw [h1]
  show (match (wsValues s2 t1)[0]? with
    | none => Except.error PyErr.indexError
    | some headerRow =>
      match s2.find? (fun (w : Worksheet) => w.title == "all_data") with
      | none => Except.error PyErr.notFound
      | some w =>
        Except.ok (setFirstWs "all_data"
          { w with rowCount := (consolidate sheets snapshot).length + 1,
                   values := headerRow :: consolidate sheets snapshot }
          s2)) = _
  rw [h2]
  show (match s2.find? (fun (w : Worksheet) => w.title == "all_data") with
    | none => Except.error PyErr.notFound
    | some w =>
      Except.ok (setFirstWs "all_data"
        { w with rowCount := (consolidate sheets snapshot).length + 1,
                 values := hdr :: consolidate sheets snapshot } s2)) = _
  rw [h3]

theorem aggregateStep_err_create {snapshot : List String} {sheets : Sheets}
    {dfCols : Option Nat} {e : PyErr}
    (hC : aggCreate snapshot sheets dfCols = .error e) :
    aggregateStep snapshot sheets dfCols = .error e := by
  unfold aggregateStep
  rw [hC]

theorem aggregateStep_err_idx1 {snapshot : List String} {sheets : Sheets}
    {dfCols : Option Nat} {s2 : Sheets} {sn2 : List String}
    (hC : aggCreate snapshot sheets dfCols = .ok (s2, sn2))
    (h1 : sn2[1]? = none) :
    aggregateStep snapshot sheets dfCols = .error .indexError := by
  unfold aggregateStep
  rw [hC]
  show (match sn2[1]? with
    | none => Except.error PyErr.indexError
    | some t1 =>
      match (wsValues s2 t1)[0]? with
      | none => Except.error PyErr.indexError
      | some headerRow =>
        match s2.find? (fun (w : Worksheet) => w.title == "all_data") with
        | none => Except.error PyErr.notFound
        | some w =>
          Except.ok (setFirstWs "all_data"
            { w with rowCount := (consolidate sheets snapshot).length + 1,
                     values := headerRow :: consolidate sheets snapshot }
            s2)) = _
  rw [h1]

theorem aggregateStep_err_idx0 {snapshot : List String} {sheets : Sheets}
    {dfCols : Option Nat} {s2 : Sheets} {sn2 : List String} {t1 : String}
    (hC : aggCreate snapshot sheets dfCols = .ok (s2, sn2))
    (h1 : sn2[1]? = some t1)
    (h2 : (wsValues s2 t1)[0]? = none) :
    aggregateStep snapshot sheets dfCols = .error .indexError := by
  unfold aggregateStep
  rw [hC]
  show (match sn2[1]? with
    | none => Except.error PyErr.indexError
    | some t1 =>
      match (wsValues s2 t1)[0]? with
      | none => Except.error PyErr.indexError
      | some headerRow =>
        match s2.find? (fun (w : Worksheet) => w.title == "all_data") with
        | none => Except.error PyErr.notFound
        | some w =>
          Except.ok (setFirstWs "all_data"
            { w with rowCount := (consolidate sheets snapshot).length + 1,
                     values := headerRow :: consolidate sheets snapshot }
            s2)) = _
  rw [h1]
  show (match (wsValues s2 t1)[0]? with
    | none => Except.error PyErr.indexError
    | some headerRow =>
      match s2.find? (fun (w : Worksheet) => w.title == "all_data") with
      | none => Except.error PyErr.notFound
      | some w =>
        Except.ok (setFirstWs "all_data"
          { w with rowCount := (consolidate sheets snapshot).length + 1,
                   values := headerRow :: consolidate sheets snapshot }
          s2)) = _
  rw [h2]

theorem aggregateStep_err_find {snapshot : List String} {sheets : Sheets}
    {dfCols : Option Nat} {s2 : Sheets} {sn2 : List String} {t1 : String}
    {hdr : List String}
    (hC : aggCreate snapshot sheets dfCols = .ok (s2, sn2))
    (h1 : sn2[1]? = some t1)
    (h2 : (wsValues s2 t1)[0]? = some hdr)
    (h3 : s2.find? (fun (w : Worksheet) => w.title == "all_data") = none) :
    aggregateStep snapshot sheets dfCols = .error .notFound := by
  unfold aggregateStep
  rw [hC]
  show (match sn2[1]? with
    | none => Except.error PyErr.indexError
    | some t1 =>
      match (wsValues s2 t1)[0]? with
      | none => Except.error PyErr.indexError
      | some headerRow =>
        match s2.find? (fun (w : Worksheet) => w.title == "all_data") with
        | none => Except.error PyErr.notFound
        | some w =>
          Except.ok (setFirstWs "all_data"
            { w with rowCount := (consolidate sheets snapshot).length + 1,
                     values := headerRow :: consolidate sheets snapshot }
            s2)) = _
  rw [h1]
  show (match (wsValues s2 t1)[0]? with
    | none => Except.error PyErr.indexError
    | some headerRow =>
      match s2.find? (fun (w : Worksheet) => w.title == "all_data") with
      | none => Except.error PyErr.notFound
      | some w =>
        Except.ok (setFirstWs "all_data"
          { w with rowCount := (consolidate sheets snapshot).length + 1,
                   values := headerRow :: consolidate sheets snapshot }
          s2)) = _
  rw [h2]
  show (match s2.find? (fun (w : Worksheet) => w.title == "all_data") with
    | none => Except.error PyErr.notFound
    | some w =>
      Except.ok (setFirstWs "all_data"
        { w with rowCount := (consolidate sheets snapshot).length + 1,
                 values := hdr :: consolidate sheets snapshot } s2)) = _
  rw [h3]

/-! ### Claim C3 -/

/-- C3 (counterexample): on a run whose initial spreadsheet holds two tabs
with 2 and 1 data rows and that creates a new month tab with 1 data row,
the rebuilt `all_data` has 3 data rows, while the sum over all live
non-excluded tabs of the destination spreadsheet — including the tab
created in the same run, as the claim demands — is 4. -/
theorem aggregate_misses_run_created_tabs :
    (runPipeline
        [⟨"2023-11-01", 3, [["h"], ["a1"], ["a2"]]⟩,
         ⟨"2023-12-01", 2, [["h"], ["b1"]]⟩]
        [("cars_20240101030000.csv",
          [⟨some "VIN1", some "N1", some "АКТИВНАЯ", some "Москва",
            some "Отдел", some "KAMAZ", some "2015",
            some "20240101030000"⟩])]).2 = none ∧
    ((wsValues (runPipeline
        [⟨"2023-11-01", 3, [["h"], ["a1"], ["a2"]]⟩,
         ⟨"2023-12-01", 2, [["h"], ["b1"]]⟩]
        [("cars_20240101030000.csv",
          [⟨some "VIN1", some "N1", some "АКТИВНАЯ", some "Москва",
            some "Отдел", some "KAMAZ", some "2015",
            some "20240101030000"⟩])]).1 "all_data").drop 1).length = 3 ∧
    (((runPipeline
        [⟨"2023-11-01", 3, [["h"], ["a1"], ["a2"]]⟩,
         ⟨"2023-12-01", 2, [["h"], ["b1"]]⟩]
        [("cars_20240101030000.csv",
          [⟨some "VIN1", some "N1", some "АКТИВНАЯ", some "Москва",
            some "Отдел", some "KAMAZ", some "2015",
            some "20240101030000"⟩])]).1.filter
        (fun (w : Worksheet) => !(excludedTab w.title))).map
        (fun (w : Worksheet) => (w.values.drop 1).length)).sum = 4 ∧
    (3 : Nat) ≠ 4 := by
  exact ⟨by rfl, by rfl, by rfl, by decide⟩

/-- C3 (amended): after a successful aggregate step, the number of data
rows in `all_data` equals the sum of data-row counts (rows minus the
header) over the worksheets of the list enumerated at the start of the
run, excluding `all_data` and the summary tab — tabs created during the
run are not in that snapshot list and are not counted. -/
theorem aggregate_count_initial_tabs :
    ∀ (snapshot : List String) (sheets : Sheets) (dfCols : Option Nat)
      (out : Sheets),
      aggregateStep snapshot sheets dfCols = .ok out →
      ∃ w ∈ out, w.title = "all_data" ∧
        (w.values.drop 1).length =
          ((snapshot.filter (fun t => !(excludedTab t))).map
            (fun t => ((wsValues sheets t).drop 1).length)).sum := by
  intro snapshot sheets dfCols out h
  rcases hC : aggCreate snapshot sheets dfCols with e | ⟨s2, sn2⟩
  · rw [aggregateStep_err_create hC] at h; cases h
  · rcases h1 : sn2[1]? with _ | t1
    · rw [aggregateStep_err_idx1 hC h1] at h; cases h
    · rcases h2 : (wsValues s2 t1)[0]? with _ | hdr
      · rw [aggregateStep_err_idx0 hC h1 h2] at h; cases h
      · rcases h3 : s2.find?
            (fun (w : Worksheet) => w.title == "all_data") with _ | w
        · rw [aggregateStep_err_find hC h1 h2 h3] at h; cases h
        · rw [aggregateStep_ok_eval hC h1 h2 h3] at h
          injection h with h'
          subst h'
          have hbeq0 := List.find?_some h3
          have hbeq : (w.title == "all_data") = true := hbeq0
          have htitle : w.title = "all_data" := eq_of_beq hbeq
          refine ⟨{ w with rowCount := (consolidate sheets snapshot).length + 1,
                           values := hdr :: consolidate sheets snapshot },
            ?_, ?_, ?_⟩
          · exact mem_setFirstWs _
              ⟨w, List.mem_of_find?_eq_some h3, htitle⟩
          · exact htitle
          · show (consolidate sheets snapshot).length = _
            exact consolidate_length sheets snapshot

/-- C3 (witness): the amended count at a concrete spreadsheet with two
initial tabs holding 2 and 1 data rows. -/
theorem aggregate_count_initial_tabs_witness :
    ∃ w ∈ [(⟨"2023-11-01", 3, [["h"], ["a1"], ["a2"]]⟩ : Worksheet),
           ⟨"2023-12-01", 2, [["h"], ["b1"]]⟩,
           ⟨"all_data", 4, [["h"], ["a1"], ["a2"], ["b1"]]⟩],
      w.title = "all_data" ∧
      (w.values.drop 1).length =
        (((["2023-11-01", "2023-12-01"] : List String).filter
            (fun t => !(excludedTab t))).map
          (fun t => ((wsValues
              [⟨"2023-11-01", 3, [["h"], ["a1"], ["a2"]]⟩,
               ⟨"2023-12-01", 2, [["h"], ["b1"]]⟩] t).drop 1).length)).sum :=
  aggregate_count_initial_tabs ["2023-11-01", "2023-12-01"]
    [⟨"2023-11-01", 3, [["h"], ["a1"], ["a2"]]⟩,
     ⟨"2023-12-01", 2, [["h"], ["b1"]]⟩]
    (some 8)
    [⟨"2023-11-01", 3, [["h"], ["a1"], ["a2"]]⟩,
     ⟨"2023-12-01", 2, [["h"], ["b1"]]⟩,
     ⟨"all_data", 4, [["h"], ["a1"], ["a2"], ["b1"]]⟩]
    (by rfl)

/-! ### Claim C4 -/

/-- C4 (counterexample): with a file whose timestamps fail to parse first
in the batch, the whole run stops with that file's `ValueError`: the
spreadsheet still holds exactly the initial tabs — the following good
file is never processed and no aggregate is rebuilt — although processing
the good file alone would create its month tab. -/
theorem run_stops_at_first_bad_file :
    runPipeline
        [⟨"2023-11-01", 3, [["h"], ["a1"], ["a2"]]⟩,
         ⟨"2023-12-01", 2, [["h"], ["b1"]]⟩]
        [("cars_20240201030000.csv",
          [⟨some "VIN3", some "N3", some "АКТИВНАЯ", some "Москва",
            some "Отдел", some "KAMAZ", some "2015", some "oops"⟩]),
         ("cars_20240101030000.csv",
          [⟨some "VIN1", some "N1", some "АКТИВНАЯ", some "Москва",
            some "Отдел", some "KAMAZ", some "2015",
            some "20240101030000"⟩])] =
      ([⟨"2023-11-01", 3, [["h"], ["a1"], ["a2"]]⟩,
        ⟨"2023-12-01", 2, [["h"], ["b1"]]⟩], some PyErr.valueError) ∧
    ((runPipeline
        [⟨"2023-11-01", 3, [["h"], ["a1"], ["a2"]]⟩,
         ⟨"2023-12-01", 2, [["h"], ["b1"]]⟩]
        [("cars_20240101030000.csv",
          [⟨some "VIN1", some "N1", some "АКТИВНАЯ", some "Москва",
            some "Отдел", some "KAMAZ", some "2015",
            some "20240101030000"⟩])]).1.map Worksheet.title).contains
      "2024-01-01" = true := by
  exact ⟨by rfl, by rfl⟩

/-- C4 (amended): a per-file failure aborts the run at that file: the tabs
written for earlier files persist unchanged (the returned state is the
state reached before the failing file), but no later file is processed
and the aggregate is never rebuilt — there is no per-file isolation. -/
theorem per_file_error_aborts_run :
    (∀ (snapshot : List String) (sheets : Sheets) (dfCols : Option Nat)
      (f : String × List RawRecord) (fs : List (String × List RawRecord))
      (e : PyErr),
      processFile snapshot sheets f = .error e →
      processFilesAux snapshot sheets dfCols (f :: fs) =
        (sheets, dfCols, some e)) ∧
    (∀ (initSheets : Sheets) (files : List (String × List RawRecord))
      (sheets : Sheets) (dfCols : Option Nat) (e : PyErr),
      processFilesAux (initSheets.map Worksheet.title) initSheets none
        files = (sheets, dfCols, some e) →
      runPipeline initSheets files = (sheets, some e)) := by
  constructor
  · intro snapshot sheets dfCols f fs e h
    unfold processFilesAux
    rw [h]
  · intro initSheets files sheets dfCols e h
    unfold runPipeline
    show (match processFilesAux (initSheets.map Worksheet.title) initSheets
        none files with
      | (sheets, _, some e) => (sheets, some e)
      | (sheets, dfCols, none) =>
        match aggregateStep (initSheets.map Worksheet.title) sheets
            dfCols with
        | Except.error e => (sheets, some e)
        | Except.ok sheets2 => (sheets2, none)) = (sheets, some e)
    rw [h]

/-- C4 (witness): the abort behavior at a concrete two-file batch whose
first file has an unparsable timestamp. -/
theorem per_file_error_aborts_run_witness :
    processFilesAux [] [] none
        [("cars_20240201030000.csv",
          [⟨some "VIN3", some "N3", some "АКТИВНАЯ", some "Москва",
            some "Отдел", some "KAMAZ", some "2015", some "oops"⟩]),
         ("cars_20240101030000.csv",
          [⟨some "VIN1", some "N1", some "АКТИВНАЯ", some "Москва",
            some "Отдел", some "KAMAZ", some "2015",
            some "20240101030000"⟩])] =
      ([], none, some PyErr.valueError) :=
  per_file_error_aborts_run.1 [] [] none _ _ PyErr.valueError (by rfl)

/-! ### Claim C6 -/

/-- C6 (code_bug): `main` downloads a selected key to
`os.path.join(BASE_DIR, s3_object)` while both the de-duplication check
and the cleaning loop list `os.path.join(BASE_DIR, "data")`: after the
download the data directory is still empty (so the file is never
cleaned), the key is selected again on the next run (downloaded twice),
and the download target differs from the path the cleaner would read. -/
theorem download_misses_data_dir :
    downloadLoop "." [] ["cars_20240101030000.csv"] =
      Except.ok ["./cars_20240101030000.csv"] ∧
    dataFilesOf "." ["./cars_20240101030000.csv"] = [] ∧
    downloadLoop "." ["./cars_20240101030000.csv"]
        ["cars_20240101030000.csv"] =
      Except.ok ["./cars_20240101030000.csv",
        "./cars_20240101030000.csv"] ∧
    joinPath "." "cars_20240101030000.csv" ≠
      joinPath (joinPath "." "data") "cars_20240101030000.csv" := by
  exact ⟨by rfl, by rfl, by rfl, by decide⟩

/-! ### Claim C9 -/

/-- C9: `S3Client.create_object` calls `put_object` on the un-entered
context-manager object returned by `get_s3_client`; the resulting
`AttributeError` is swallowed by the broad `except Exception` handler, so
the method returns `False` on every input and never stores an object. -/
theorem create_object_always_false :
    ∀ (st : S3State) (bucket key content : String),
      create_object st bucket key content = (false, st) := by
  intro st bucket key content
  rfl

/-! ### Claim C10 -/

/-- C10: when the aggregate step publishes, its header row is the first
row of the worksheet at index 1 of the initially-enumerated worksheet
list; and whenever that list is too short (fewer than two entries before
appending — appending a freshly created, hence empty, `all_data` cannot
help) or the indexed worksheet has no values, the aggregate step raises
instead of publishing. -/
theorem contains_of_mem {l : List String} {a : String} (h : a ∈ l) :
    l.contains a = true := by
  simp
  exact h

theorem aggregate_header_fixed_index :
    (∀ (snapshot : List String) (sheets : Sheets) (dfCols : Option Nat)
      (out : Sheets),
      aggregateStep snapshot sheets dfCols = .ok out →
      ∃ t, snapshot[1]? = some t ∧
        ∃ hdr rest, wsValues sheets t = hdr :: rest ∧
          ∃ w ∈ out, w.title = "all_data" ∧ w.values.headD [] = hdr) ∧
    (∀ (snapshot : List String) (sheets : Sheets) (dfCols : Option Nat),
      snapshot.length < 2 →
      (aggregateStep snapshot sheets dfCols).isOk = false) ∧
    (∀ (snapshot : List String) (sheets : Sheets) (dfCols : Option Nat)
      (t : String),
      snapshot[1]? = some t →
      wsValues sheets t = [] →
      (aggregateStep snapshot sheets dfCols).isOk = false) := by
  refine ⟨?_, ?_, ?_⟩
  · intro snapshot sheets dfCols out h
    rcases hC : aggCreate snapshot sheets dfCols with e | ⟨s2, sn2⟩
    · rw [aggregateStep_err_create hC] at h; cases h
    · rcases h1 : sn2[1]? with _ | t1
      · rw [aggregateStep_err_idx1 hC h1] at h; cases h
      · rcases h2 : (wsValues s2 t1)[0]? with _ | hdr
        · rw [aggregateStep_err_idx0 hC h1 h2] at h; cases h
        · rcases h3 : s2.find?
              (fun (w : Worksheet) => w.title == "all_data") with _ | w
          · rw [aggregateStep_err_find hC h1 h2 h3] at h; cases h
          · rw [aggregateStep_ok_eval hC h1 h2 h3] at h
            injection h with h'
            subst h'
            have hbeq0 := List.find?_some h3
            have hbeq : (w.title == "all_data") = true := hbeq0
            have htitle : w.title = "all_data" := eq_of_beq hbeq
            have hout : ∃ w' ∈ setFirstWs "all_data"
                { w with
                  rowCount := (consolidate sheets snapshot).length + 1,
                  values := hdr :: consolidate sheets snapshot } s2,
                w'.title = "all_data" ∧ w'.values.headD [] = hdr := by
              refine ⟨{ w with
                  rowCount := (consolidate sheets snapshot).length + 1,
                  values := hdr :: consolidate sheets snapshot },
                ?_, htitle, rfl⟩
              exact mem_setFirstWs _
                ⟨w, List.mem_of_find?_eq_some h3, htitle⟩
            rcases aggCreate_spec hC with ⟨hc, hl, hs2, hsn2⟩ |
                ⟨hc, hl, hs2, hsn2⟩
            · rw [hsn2] at h1
              rw [hs2] at h2
              refine ⟨t1, h1, ?_⟩
              rcases hval : wsValues sheets t1 with _ | ⟨hd, rest⟩
              · rw [hval] at h2; cases h2
              · rw [hval] at h2
                simp only [List.getElem?_cons_zero, Option.some.injEq] at h2
                subst h2
                exact ⟨hd, rest, rfl, hout⟩
            · rw [hsn2] at h1
              rw [hs2] at h2
              rcases snapshot with _ | ⟨a, _ | ⟨b, r⟩⟩
              · simp at h1
              · have ht1 : t1 = "all_data" := by simpa using h1.symm
                subst ht1
                rw [wsValues_fresh hl] at h2
                simp at h2
              · have hlen : 1 < (a :: b :: r).length := by simp
                rw [List.getElem?_append_left hlen] at h1
                have hmem : t1 ∈ a :: b :: r := by
                  obtain ⟨hlt, hg⟩ := List.getElem?_eq_some_iff.mp h1
                  exact hg ▸ List.getElem_mem hlt
                have hne : t1 ≠ "all_data" := by
                  intro he
                  have hcontains := contains_of_mem (he ▸ hmem)
                  rw [hc] at hcontains
                  cases hcontains
                rw [wsValues_append_fresh hne] at h2
                refine ⟨t1, h1, ?_⟩
                rcases hval : wsValues sheets t1 with _ | ⟨hd, rest⟩
                · rw [hval] at h2; cases h2
                · rw [hval] at h2
                  simp only [List.getElem?_cons_zero,
                    Option.some.injEq] at h2
                  subst h2
                  exact ⟨hd, rest, rfl, hout⟩
  · intro snapshot sheets dfCols hlen
    rcases hC : aggCreate snapshot sheets dfCols with e | ⟨s2, sn2⟩
    · rw [aggregateStep_err_create hC]; rfl
    · rcases aggCreate_spec hC with ⟨hc, hl, hs2, hsn2⟩ |
          ⟨hc, hl, hs2, hsn2⟩
      · have h1 : sn2[1]? = none := by
          rw [hsn2]
          exact List.getElem?_eq_none (by omega)
        rw [aggregateStep_err_idx1 hC h1]; rfl
      · rcases snapshot with _ | ⟨a, _ | ⟨b, r⟩⟩
        · have h1 : sn2[1]? = none := by rw [hsn2]; rfl
          rw [aggregateStep_err_idx1 hC h1]; rfl
        · have h1 : sn2[1]? = some "all_data" := by rw [hsn2]; rfl
          have h2 : (wsValues s2 "all_data")[0]? = none := by
            rw [hs2, wsValues_fresh hl]
            rfl
          rw [aggregateStep_err_idx0 hC h1 h2]; rfl
        · exfalso
          simp only [List.length_cons] at hlen
          omega
  · intro snapshot sheets dfCols t h1' hempty
    rcases hC : aggCreate snapshot sheets dfCols with e | ⟨s2, sn2⟩
    · rw [aggregateStep_err_create hC]; rfl
    · rcases aggCreate_spec hC with ⟨hc, hl, hs2, hsn2⟩ |
          ⟨hc, hl, hs2, hsn2⟩
      · have h1 : sn2[1]? = some t := by rw [hsn2]; exact h1'
        have h2 : (wsValues s2 t)[0]? = none := by rw [hs2, hempty]; rfl
        rw [aggregateStep_err_idx0 hC h1 h2]; rfl
      · have hlt : 1 < snapshot.length :=
          (List.getElem?_eq_some_iff.mp h1').1
        have h1 : sn2[1]? = some t := by
          rw [hsn2, List.getElem?_append_left hlt]
          exact h1'
        have hmem : t ∈ snapshot := by
          obtain ⟨hlt2, hg⟩ := List.getElem?_eq_some_iff.mp h1'
          exact hg ▸ List.getElem_mem hlt2
        have hne : t ≠ "all_data" := by
          intro he
          have hcontains := contains_of_mem (he ▸ hmem)
          rw [hc] at hcontains
          cases hcontains
        have h2 : (wsValues s2 t)[0]? = none := by
          rw [hs2, wsValues_append_fresh hne, hempty]
          rfl
        rw [aggregateStep_err_idx0 hC h1 h2]; rfl

/-- C10 (witness): the three parts at concrete spreadsheets — a
successful aggregate taking its header from the tab at index 1, a
one-tab snapshot, and a snapshot whose index-1 tab has no values. -/
theorem aggregate_header_fixed_index_witness :
    (∃ t, (["2023-11-01", "2023-12-01"] : List String)[1]? = some t ∧
      ∃ hdr rest, wsValues
          [⟨"2023-11-01", 3, [["h"], ["a1"], ["a2"]]⟩,
           ⟨"2023-12-01", 2, [["h"], ["b1"]]⟩] t = hdr :: rest ∧
        ∃ w ∈ [(⟨"2023-11-01", 3, [["h"], ["a1"], ["a2"]]⟩ : Worksheet),
               ⟨"2023-12-01", 2, [["h"], ["b1"]]⟩,
               ⟨"all_data", 4, [["h"], ["a1"], ["a2"], ["b1"]]⟩],
          w.title = "all_data" ∧ w.values.headD [] = hdr) ∧
    (aggregateStep ["x"] [] none).isOk = false ∧
    (aggregateStep ["a", "b"] [] none).isOk = false :=
  ⟨aggregate_header_fixed_index.1 ["2023-11-01", "2023-12-01"]
      [⟨"2023-11-01", 3, [["h"], ["a1"], ["a2"]]⟩,
       ⟨"2023-12-01", 2, [["h"], ["b1"]]⟩] (some 8)
      [⟨"2023-11-01", 3, [["h"], ["a1"], ["a2"]]⟩,
       ⟨"2023-12-01", 2, [["h"], ["b1"]]⟩,
       ⟨"all_data", 4, [["h"], ["a1"], ["a2"], ["b1"]]⟩] (by rfl),
   aggregate_header_fixed_index.2.1 ["x"] [] none (by decide),
   aggregate_header_fixed_index.2.2 ["a", "b"] [] none "b"
     (by rfl) (by rfl)⟩

end Reports
